import Mathlib

/-!
# Verification of the AirPatrol API client

A shallow embedding of `airpatrol/api.py` and `airpatrol/const.py`.

Python's decoded JSON values (the results of `resp.json()` and the values
stored in dicts) are modelled by the inductive type `Json`; Python's `None`
is `Json.null`.  Exceptions raised by the client (`AirPatrolAuthenticationError`,
`AirPatrolError`, `ValueError`) and by the Python runtime during dict/list
access (`KeyError`, `TypeError`, `IndexError`, `AttributeError`) are modelled
by `PyExn`, and fallible code returns `Except PyExn _`.

The network is modelled by passing each operation the `Response` (status code
plus parsed JSON body) that the HTTP session would deliver for the request it
issues; `get_pairings` additionally returns the updated client state and the
number of network calls it issued, so that the cache behaviour is observable.
Request construction (URL, headers, body) is modelled separately by explicit
`Request`-building functions.
-/

namespace AirPatrol

/-- A decoded JSON value, as produced by Python's `resp.json()`.
`Json.null` doubles as Python `None`.  Numbers are modelled as integers
(no claim in scope involves fractional numeric comparison). -/
inductive Json where
  | null : Json
  | bool (b : Bool) : Json
  | num (n : Int) : Json
  | str (s : String) : Json
  | arr (xs : List Json) : Json
  | obj (kvs : List (String × Json)) : Json

/-- Python `==` on decoded JSON values: structural equality.  (Objects are
compared as ordered association lists; Python's key-order-insensitive dict
equality and bool/int cross-type equality are not distinguished by any
behaviour in this client, whose compared values are strings and `None`.) -/
def Json.beq : Json → Json → Bool
  | Json.null, Json.null => true
  | Json.bool a, Json.bool b => a == b
  | Json.num a, Json.num b => a == b
  | Json.str a, Json.str b => a == b
  | Json.arr [], Json.arr [] => true
  | Json.arr (x :: xs), Json.arr (y :: ys) =>
      Json.beq x y && Json.beq (Json.arr xs) (Json.arr ys)
  | Json.obj [], Json.obj [] => true
  | Json.obj ((k1, v1) :: xs), Json.obj ((k2, v2) :: ys) =>
      k1 == k2 && Json.beq v1 v2 && Json.beq (Json.obj xs) (Json.obj ys)
  | _, _ => false

/-- Exceptions observable from the client: the two library exception classes,
`ValueError`, and the Python runtime errors that dict/list access can raise. -/
inductive PyExn where
  | authenticationError (msg : String) : PyExn
  | apiError (msg : String) : PyExn
  | valueError (msg : String) : PyExn
  | keyError (key : String) : PyExn
  | typeError : PyExn
  | indexError : PyExn
  | attributeError : PyExn
deriving DecidableEq

/-- Association-list lookup, the first binding of a key in a JSON object. -/
def lookupKey : List (String × Json) → String → Option Json
  | [], _ => none
  | (k, v) :: rest, key => if k = key then some v else lookupKey rest key

/-- Python `d[key]`: on a dict, the stored value or `KeyError`; on any other
value, `TypeError`. -/
def Json.item (j : Json) (key : String) : Except PyExn Json :=
  match j with
  | Json.obj kvs =>
    match lookupKey kvs key with
    | some v => Except.ok v
    | none => Except.error (PyExn.keyError key)
  | _ => Except.error PyExn.typeError

/-- Python `d.get(key)`: on a dict, the stored value or `None` when the key is
absent; on any other value, `AttributeError`. -/
def Json.getKey (j : Json) (key : String) : Except PyExn Json :=
  match j with
  | Json.obj kvs => Except.ok ((lookupKey kvs key).getD Json.null)
  | _ => Except.error PyExn.attributeError

/-- Python `d.get(key, default)`: on a dict, the stored value or `default`
when the key is absent; on any other value, `AttributeError`. -/
def Json.getKeyD (j : Json) (key : String) (dflt : Json) : Except PyExn Json :=
  match j with
  | Json.obj kvs => Except.ok ((lookupKey kvs key).getD dflt)
  | _ => Except.error PyExn.attributeError

/-- Python `l[i]` for a non-negative index: on a list, the element or
`IndexError`; on any other value, `TypeError`. -/
def Json.atIndex (j : Json) (i : Nat) : Except PyExn Json :=
  match j with
  | Json.arr xs =>
    match xs.get? i with
    | some v => Except.ok v
    | none => Except.error PyExn.indexError
  | _ => Except.error PyExn.typeError

/-- Python `for _ in l`: iteration demands a list (iteration over other
containers does not occur in this client's data). -/
def Json.asArray (j : Json) : Except PyExn (List Json) :=
  match j with
  | Json.arr xs => Except.ok xs
  | _ => Except.error PyExn.typeError

/-- Python `s.upper()`: defined on strings, `AttributeError` otherwise
(in particular on `None`). -/
def pyUpper : Json → Except PyExn String
  | Json.str s => Except.ok s.toUpper
  | _ => Except.error PyExn.attributeError

/-- Whether a JSON value is a dict. -/
def isObj : Json → Bool
  | Json.obj _ => true
  | _ => false

/-- Total projection of `d.get(key, default)` on dicts, used in specification
statements under an `isObj` hypothesis (it agrees with `Json.getKeyD` there). -/
def objGetD (j : Json) (key : String) (dflt : Json) : Json :=
  match j with
  | Json.obj kvs => (lookupKey kvs key).getD dflt
  | _ => dflt

/-- Total projection of `d.get(key)` on dicts, used in specification
statements under an `isObj` hypothesis (it agrees with `Json.getKey` there). -/
def objGet (j : Json) (key : String) : Json :=
  objGetD j key Json.null

/- ## Constants (`airpatrol/const.py`) -/

def AUTH_BASE_URL : String := "https://auth.apsrvd.io/v1"

def AUTH_LOGIN_ENDPOINT : String := "/login"

def AUTH_PAIRINGS_ENDPOINT : String := "/pairings"

def API_VERSION : String := "12"

def API_BASE_URL : String := "https://api.apsrvd.io/" ++ API_VERSION

def API_COMMAND_ENDPOINT : String := "/command"

/- ## HTTP model -/

/-- What the session delivers for one request: the integer status code and the
parsed JSON body (`resp.status` and `await resp.json()`). -/
structure Response where
  status : Nat
  body : Json

/-- An outbound HTTP request as the client builds it: method, URL, headers and
optional JSON body (aiohttp's `json=` keyword). -/
structure Request where
  method : String
  url : String
  headers : List (String × String)
  json_body : Option Json

/-- Case-sensitive header lookup in a request's header list. -/
def lookupHeader : List (String × String) → String → Option String
  | [], _ => none
  | (k, v) :: rest, key => if k = key then some v else lookupHeader rest key

/- ## Client state (`AirPatrolAPI.__init__`) -/

/-- The mutable state of an `AirPatrolAPI` instance: `_access_token`,
`_user_id` and `_pairings_cache`.  The token and user id are stored as the
dynamic Python values the constructor receives (`Json.null` models `None`);
the externally owned session is not part of the state.  `__init__` sets
`_pairings_cache` to `None`. -/
structure AirPatrolAPI where
  access_token : Json
  user_id : Json
  pairings_cache : Option Json

/- ## Authentication (`AirPatrolAPI.authenticate`) -/

/-- The extraction `data["entities"]["users"]["list"][0]["id"]` on the parsed
login body. -/
def loginUserId (data : Json) : Except PyExn Json :=
  match Json.item data "entities" with
  | Except.error e => Except.error e
  | Except.ok entities =>
    match Json.item entities "users" with
    | Except.error e => Except.error e
    | Except.ok users =>
      match Json.item users "list" with
      | Except.error e => Except.error e
      | Except.ok lst =>
        match Json.atIndex lst 0 with
        | Except.error e => Except.error e
        | Except.ok first => Json.item first "id"

/-- The extraction `data["misc"]["accessToken"]` on the parsed login body. -/
def loginAccessToken (data : Json) : Except PyExn Json :=
  match Json.item data "misc" with
  | Except.error e => Except.error e
  | Except.ok misc => Json.item misc "accessToken"

/-- `AirPatrolAPI.authenticate`, given the response the session delivers for
the login POST.  A non-200 status raises `AirPatrolAuthenticationError`; on
200 with body `status == "ok"` the user id and access token are extracted and
a fresh client (cache `None`) is returned; otherwise control falls through the
`async with` block to the terminal
`raise AirPatrolAuthenticationError("Authentication failed")`. -/
def authenticate (resp : Response) : Except PyExn AirPatrolAPI :=
  if resp.status ≠ 200 then
    Except.error (PyExn.authenticationError "Authentication failed")
  else
    match Json.getKey resp.body "status" with
    | Except.error e => Except.error e
    | Except.ok v =>
      if Json.beq v (Json.str "ok") then
        match loginUserId resp.body with
        | Except.error e => Except.error e
        | Except.ok uid =>
          match loginAccessToken resp.body with
          | Except.error e => Except.error e
          | Except.ok tok =>
            Except.ok { access_token := tok, user_id := uid, pairings_cache := none }
      else
        Except.error (PyExn.authenticationError "Authentication failed")

/- ## Identity accessors -/

/-- `AirPatrolAPI.get_unique_id`: raises `ValueError("Not authenticated")`
when `_user_id is None`, else returns the stored user id.  It reads the
client's state and issues no network call (its type has no state or response
argument beyond the client, and no state result). -/
def get_unique_id (api : AirPatrolAPI) : Except PyExn Json :=
  if Json.beq api.user_id Json.null then
    Except.error (PyExn.valueError "Not authenticated")
  else
    Except.ok api.user_id

/-- `AirPatrolAPI.get_access_token`: returns the stored token unconditionally
(a total function: never raises, no network call, no state change). -/
def get_access_token (api : AirPatrolAPI) : Json :=
  api.access_token

/- ## Pairings discovery and cache -/

/-- `AirPatrolAPI.clear_pairings_cache`: sets the cache to `None`. -/
def clear_pairings_cache (api : AirPatrolAPI) : AirPatrolAPI :=
  { api with pairings_cache := none }

/-- `AirPatrolAPI.get_pairings`, given the response the session would deliver
for the pairings GET.  Returns the result, the updated client state, and the
number of network calls issued (0 on a cache hit, 1 otherwise). -/
def get_pairings (api : AirPatrolAPI) (resp : Response) :
    Except PyExn Json × AirPatrolAPI × Nat :=
  match api.pairings_cache with
  | some cached => (Except.ok cached, api, 0)
  | none =>
    if resp.status = 401 ∨ resp.status = 403 then
      (Except.error (PyExn.authenticationError "Failed to fetch pairings"), api, 1)
    else if resp.status = 200 then
      match Json.getKey resp.body "status" with
      | Except.error e => (Except.error e, api, 1)
      | Except.ok v =>
        if ¬ Json.beq v (Json.str "ok") then
          (Except.error (PyExn.apiError "API returned error status"), api, 1)
        else
          (Except.ok resp.body, { api with pairings_cache := some resp.body }, 1)
    else
      (Except.error
        (PyExn.apiError ("Failed to fetch pairings: " ++ toString resp.status)), api, 1)

/-- The result component of a `get_pairings` outcome. -/
def outcome (r : Except PyExn Json × AirPatrolAPI × Nat) : Except PyExn Json :=
  r.1

/-- The updated client state of a `get_pairings` outcome. -/
def nextState (r : Except PyExn Json × AirPatrolAPI × Nat) : AirPatrolAPI :=
  r.2.1

/-- The number of network calls of a `get_pairings` outcome. -/
def netCalls (r : Except PyExn Json × AirPatrolAPI × Nat) : Nat :=
  r.2.2

/- ## Device resolution (`AirPatrolAPI.get_devices`) -/

/-- `data.get("entities", {}).get("pairingUser", {}).get("list", [])`,
iterated as a list. -/
def pairingUsersOf (data : Json) : Except PyExn (List Json) :=
  match Json.getKeyD data "entities" (Json.obj []) with
  | Except.error e => Except.error e
  | Except.ok entities =>
    match Json.getKeyD entities "pairingUser" (Json.obj []) with
    | Except.error e => Except.error e
    | Except.ok pu =>
      match Json.getKeyD pu "list" (Json.arr []) with
      | Except.error e => Except.error e
      | Except.ok l => Json.asArray l

/-- `data.get("entities", {}).get("pairings", {}).get("list", [])`,
iterated as a list (evaluated inside the loop, once per matching entry). -/
def pairingsOf (data : Json) : Except PyExn (List Json) :=
  match Json.getKeyD data "entities" (Json.obj []) with
  | Except.error e => Except.error e
  | Except.ok entities =>
    match Json.getKeyD entities "pairings" (Json.obj []) with
    | Except.error e => Except.error e
    | Except.ok ps =>
      match Json.getKeyD ps "list" (Json.arr []) with
      | Except.error e => Except.error e
      | Except.ok l => Json.asArray l

/-- The inner `for pairing in pairings: if pairing.get("id") == pairing_id:
append; break` loop: the first pairing whose `id` compares equal, if any. -/
def findPairing (pid : Json) : List Json → Except PyExn (Option Json)
  | [] => Except.ok none
  | p :: rest =>
    match Json.getKey p "id" with
    | Except.error e => Except.error e
    | Except.ok v =>
      if Json.beq v pid then Except.ok (some p) else findPairing pid rest

/-- The outer loop of `get_devices` over `pairing_users`: entries whose
`userId` compares equal to the client's `_user_id` contribute the first
pairing matching their `pairingId` (appended in iteration order). -/
def devicesLoop (uid : Json) (data : Json) : List Json → Except PyExn (List Json)
  | [] => Except.ok []
  | pu :: rest =>
    match Json.getKey pu "userId" with
    | Except.error e => Except.error e
    | Except.ok v =>
      if Json.beq v uid then
        match Json.getKey pu "pairingId" with
        | Except.error e => Except.error e
        | Except.ok pid =>
          match pairingsOf data with
          | Except.error e => Except.error e
          | Except.ok ps =>
            match findPairing pid ps with
            | Except.error e => Except.error e
            | Except.ok found =>
              match devicesLoop uid data rest with
              | Except.error e => Except.error e
              | Except.ok tail =>
                match found with
                | some p => Except.ok (p :: tail)
                | none => Except.ok tail
      else
        devicesLoop uid data rest

/-- The pure part of `AirPatrolAPI.get_devices`: resolve a discovery document
against a user id. -/
def get_devices_from (uid : Json) (data : Json) : Except PyExn (List Json) :=
  match pairingUsersOf data with
  | Except.error e => Except.error e
  | Except.ok pus => devicesLoop uid data pus

/-- `AirPatrolAPI.get_devices`: `await self.get_pairings()` followed by the
pure resolution above. -/
def get_devices (api : AirPatrolAPI) (resp : Response) :
    Except PyExn (List Json) × AirPatrolAPI × Nat :=
  match get_pairings api resp with
  | (Except.error e, s, n) => (Except.error e, s, n)
  | (Except.ok data, s, n) => (get_devices_from s.user_id data, s, n)

/- ## Per-unit climate read/write: response handling -/

/-- Response handling of `AirPatrolAPI.get_unit_climate_data`: 401/403 raise
`AirPatrolAuthenticationError`, 200 returns the parsed body verbatim, any
other status falls through to `AirPatrolError` with the status interpolated. -/
def get_unit_climate_data (resp : Response) : Except PyExn Json :=
  if resp.status = 401 ∨ resp.status = 403 then
    Except.error (PyExn.authenticationError "Failed to fetch climate data")
  else if resp.status = 200 then
    Except.ok resp.body
  else
    Except.error
      (PyExn.apiError ("Failed to fetch climate data: " ++ toString resp.status))

/-- Response handling of `AirPatrolAPI.set_unit_climate_data`: the same
branch structure with the "set" messages. -/
def set_unit_climate_data (resp : Response) : Except PyExn Json :=
  if resp.status = 401 ∨ resp.status = 403 then
    Except.error (PyExn.authenticationError "Failed to set climate data")
  else if resp.status = 200 then
    Except.ok resp.body
  else
    Except.error
      (PyExn.apiError ("Failed to set climate data: " ++ toString resp.status))

/- ## Per-unit climate read/write: request construction -/

/-- Python f-string rendering of the stored access token inside
`f"Bearer {self._access_token}"`.  The constructor annotates the token as
`str`, for which interpolation is the identity; the remaining scalar cases
follow Python's `str()`, and container reprs (never produced by this client's
own flows) are abbreviated. -/
def fstr : Json → String
  | Json.str s => s
  | Json.null => "None"
  | Json.bool true => "True"
  | Json.bool false => "False"
  | Json.num n => toString n
  | Json.arr _ => "[...]"
  | Json.obj _ => "\x7b...\x7d"

/-- The two headers both climate operations attach:
`Authorization: Bearer <token>` and `X-Pairing-Id: <unit_id>`. -/
def commandHeaders (api : AirPatrolAPI) (unit_id : String) : List (String × String) :=
  [("Authorization", "Bearer " ++ fstr api.access_token),
   ("X-Pairing-Id", unit_id)]

/-- The GET request issued by `get_unit_climate_data(unit_id)`. -/
def get_unit_climate_request (api : AirPatrolAPI) (unit_id : String) : Request :=
  { method := "GET"
    url := API_BASE_URL ++ API_COMMAND_ENDPOINT
    headers := commandHeaders api unit_id
    json_body := none }

/-- The POST request issued by `set_unit_climate_data(unit_id, climate_data)`:
same endpoint and headers, with the caller's payload passed as the JSON body
(`json=climate_data`, unmodified). -/
def set_unit_climate_request (api : AirPatrolAPI) (unit_id : String)
    (climate_data : Json) : Request :=
  { method := "POST"
    url := API_BASE_URL ++ API_COMMAND_ENDPOINT
    headers := commandHeaders api unit_id
    json_body := some climate_data }

/- ## Aggregated unit data (`AirPatrolAPI.get_data` / `get_units`) -/

/-- The per-device loop of `get_data`, given the response the session would
deliver for each unit's climate GET (indexed by unit id).  A device whose
`id` is not a string is skipped before any climate fetch; otherwise the unit
climate snapshot dict is assembled exactly as in the source. -/
def dataLoop (climate : String → Response) : List Json → Except PyExn (List Json)
  | [] => Except.ok []
  | device :: rest =>
    match Json.getKey device "id" with
    | Except.error e => Except.error e
    | Except.ok unit_id =>
      match unit_id with
      | Json.str s =>
        match get_unit_climate_data (climate s) with
        | Except.error e => Except.error e
        | Except.ok climate_data =>
          match Json.getKeyD device "name" (Json.str ("AirPatrol Device " ++ s)) with
          | Except.error e => Except.error e
          | Except.ok nameVal =>
            match Json.getKeyD device "type" (Json.str "Unknown") with
            | Except.error e => Except.error e
            | Except.ok tyVal =>
              match pyUpper tyVal with
              | Except.error e => Except.error e
              | Except.ok tyUpper =>
                match Json.getKey device "hwid" with
                | Except.error e => Except.error e
                | Except.ok hw =>
                  match Json.getKey device "type" with
                  | Except.error e => Except.error e
                  | Except.ok tyRaw =>
                    match Json.getKey device "appId" with
                    | Except.error e => Except.error e
                    | Except.ok app =>
                      match dataLoop climate rest with
                      | Except.error e => Except.error e
                      | Except.ok tail =>
                        Except.ok (Json.obj
                          [("unit_id", Json.str s),
                           ("name", nameVal),
                           ("model", Json.str ("AirPatrol " ++ tyUpper)),
                           ("manufacturer", Json.str "AirPatrol"),
                           ("hwid", hw),
                           ("type", tyRaw),
                           ("app_id", app),
                           ("climate", climate_data)] :: tail)
      | _ => dataLoop climate rest

/-- `AirPatrolAPI.get_data`: resolve the devices, then assemble one unit
climate snapshot per string-id device. -/
def get_data (api : AirPatrolAPI) (resp : Response)
    (climate : String → Response) : Except PyExn (List Json) :=
  match get_devices api resp with
  | (Except.error e, _, _) => Except.error e
  | (Except.ok devices, _, _) => dataLoop climate devices

/-- `AirPatrolAPI.get_units`: returns `await self.get_data()`. -/
def get_units (api : AirPatrolAPI) (resp : Response)
    (climate : String → Response) : Except PyExn (List Json) :=
  get_data api resp climate

/- ## Specification-side definitions

These restate, in the spec's own words, what device resolution and unit
aggregation are supposed to compute; the refinement theorems below compare
them with the operational definitions above. -/

/-- Per the spec: filter `pairingUser.list` to the entries whose `userId`
equals the client's user id, and resolve each matching entry's `pairingId`
against `pairings.list` by a linear first-match scan, dropping entries with
no match. -/
def resolveOwnedSpec (uid : Json) (pus ps : List Json) : List Json :=
  (pus.filter (fun pu => Json.beq (objGet pu "userId") uid)).filterMap
    (fun pu => ps.find? (fun p => Json.beq (objGet p "id") (objGet pu "pairingId")))

/-- The device's `type` rendered as the string that `.upper()` is applied to:
the stored value when it is a string, the literal `"Unknown"` when the key is
absent, and undefined (`none`) when a non-string value is stored. -/
def typeStr (d : Json) : Option String :=
  match objGetD d "type" (Json.str "Unknown") with
  | Json.str s => some s
  | _ => none

/-- Per the spec: one unit climate snapshot for a device with a string `id`,
and `none` (silent exclusion) otherwise.  `model` is
`"AirPatrol " + type.upper()` with `type` defaulting to `"Unknown"`, `name`
defaults to `"AirPatrol Device " + unit_id`, and `manufacturer` is the fixed
literal `"AirPatrol"`. -/
def snapshotSpec (climateBody : String → Json) (d : Json) : Option Json :=
  match objGet d "id" with
  | Json.str s => some (Json.obj
      [("unit_id", Json.str s),
       ("name", objGetD d "name" (Json.str ("AirPatrol Device " ++ s))),
       ("model", Json.str ("AirPatrol " ++ ((typeStr d).getD "").toUpper)),
       ("manufacturer", Json.str "AirPatrol"),
       ("hwid", objGet d "hwid"),
       ("type", objGet d "type"),
       ("app_id", objGet d "appId"),
       ("climate", climateBody s)])
  | _ => none

/-- Per the spec: the snapshots of the string-id devices, in device order. -/
def unitsSpec (climateBody : String → Json) (devices : List Json) : List Json :=
  devices.filterMap (snapshotSpec climateBody)

/- ## Basic lemmas about the embedding -/

theorem Json.beq_str_iff (v : Json) (s : String) :
    Json.beq v (Json.str s) = true ↔ v = Json.str s := by
  cases v <;> simp [Json.beq]

theorem Json.beq_null_iff (v : Json) :
    Json.beq v Json.null = true ↔ v = Json.null := by
  cases v <;> simp [Json.beq]

theorem Json.getKey_of_isObj (j : Json) (k : String) (h : isObj j = true) :
    Json.getKey j k = Except.ok (objGet j k) := by
  cases j <;> simp_all [Json.getKey, isObj, objGet, objGetD]

theorem Json.getKeyD_of_isObj (j : Json) (k : String) (d : Json)
    (h : isObj j = true) :
    Json.getKeyD j k d = Except.ok (objGetD j k d) := by
  cases j <;> simp_all [Json.getKeyD, isObj, objGetD]

/-- `d[k]` only raises `KeyError` or `TypeError`. -/
theorem Json.item_error_shape (j : Json) (k : String) (e : PyExn)
    (h : Json.item j k = Except.error e) :
    e = PyExn.keyError k ∨ e = PyExn.typeError := by
  cases j <;> simp [Json.item] at h <;> try simp [h]
  case obj kvs =>
    cases hl : lookupKey kvs k <;> simp [hl] at h
    simp [h]

/-- `d.get(k)` only raises `AttributeError`. -/
theorem Json.getKey_error_shape (j : Json) (k : String) (e : PyExn)
    (h : Json.getKey j k = Except.error e) :
    e = PyExn.attributeError := by
  cases j <;> simp [Json.getKey] at h <;> simp [h]

/-- `l[i]` only raises `IndexError` or `TypeError`. -/
theorem Json.atIndex_error_shape (j : Json) (i : Nat) (e : PyExn)
    (h : Json.atIndex j i = Except.error e) :
    e = PyExn.indexError ∨ e = PyExn.typeError := by
  cases j <;> simp [Json.atIndex] at h <;> try simp [h]
  case arr xs => split at h <;> simp_all

/-- The login user-id extraction never raises the library's
authentication error (only runtime lookup errors). -/
theorem loginUserId_not_auth (d : Json) (m : String) :
    loginUserId d ≠ Except.error (PyExn.authenticationError m) := by
  intro h
  unfold loginUserId at h
  rcases h1 : Json.item d "entities" with e1 | entities <;> simp only [h1] at h
  · injection h with h'
    subst h'
    rcases Json.item_error_shape _ _ _ h1 with h2 | h2 <;> simp at h2
  · rcases h2 : Json.item entities "users" with e2 | users <;> simp only [h2] at h
    · injection h with h'
      subst h'
      rcases Json.item_error_shape _ _ _ h2 with h3 | h3 <;> simp at h3
    · rcases h3 : Json.item users "list" with e3 | lst <;> simp only [h3] at h
      · injection h with h'
        subst h'
        rcases Json.item_error_shape _ _ _ h3 with h4 | h4 <;> simp at h4
      · rcases h4 : Json.atIndex lst 0 with e4 | fst <;> simp only [h4] at h
        · injection h with h'
          subst h'
          rcases Json.atIndex_error_shape _ _ _ h4 with h5 | h5 <;> simp at h5
        · rcases Json.item_error_shape _ _ _ h with h5 | h5 <;> simp at h5

/-- The access-token extraction never raises the library's
authentication error. -/
theorem loginAccessToken_not_auth (d : Json) (m : String) :
    loginAccessToken d ≠ Except.error (PyExn.authenticationError m) := by
  intro h
  unfold loginAccessToken at h
  rcases h1 : Json.item d "misc" with e1 | misc <;> simp only [h1] at h
  · injection h with h'
    subst h'
    rcases Json.item_error_shape _ _ _ h1 with h2 | h2 <;> simp at h2
  · rcases Json.item_error_shape _ _ _ h with h2 | h2 <;> simp at h2

/- ## Claim theorems -/

/-- C1: For every login response with HTTP status 200 whose parsed JSON body
has `status == "ok"`, `authenticate` returns a new Client whose stored access
token equals the body's `misc.accessToken` field and whose stored user id
equals the `id` field of the first entry of `entities.users.list` (and whose
pairings cache is fresh). -/
theorem authenticate_success (resp : Response) (uid tok : Json)
    (h200 : resp.status = 200)
    (hok : Json.getKey resp.body "status" = Except.ok (Json.str "ok"))
    (huid : loginUserId resp.body = Except.ok uid)
    (htok : loginAccessToken resp.body = Except.ok tok) :
    authenticate resp =
      Except.ok { access_token := tok, user_id := uid, pairings_cache := none } := by
  simp [authenticate, h200, hok, huid, htok, Json.beq]

/-- The successful login body of the repository's own
`test_authenticate_success`. -/
def loginBodyEx : Json :=
  Json.obj
    [("status", Json.str "ok"),
     ("entities", Json.obj
        [("users", Json.obj
           [("list", Json.arr [Json.obj [("id", Json.str "test_user_id")]])])]),
     ("misc", Json.obj [("accessToken", Json.str "test_access_token")])]

/-- Witness for C1 at the repository's own successful-login test vector. -/
theorem authenticate_success_witness :
    Json.getKey loginBodyEx "status" = Except.ok (Json.str "ok") ∧
    loginUserId loginBodyEx = Except.ok (Json.str "test_user_id") ∧
    loginAccessToken loginBodyEx = Except.ok (Json.str "test_access_token") ∧
    authenticate { status := 200, body := loginBodyEx } =
      Except.ok { access_token := Json.str "test_access_token",
                  user_id := Json.str "test_user_id",
                  pairings_cache := none } :=
  ⟨rfl, rfl, rfl,
    authenticate_success { status := 200, body := loginBodyEx }
      (Json.str "test_user_id") (Json.str "test_access_token") rfl rfl rfl rfl⟩

/-- C2: `authenticate` fails with
`AirPatrolAuthenticationError("Authentication failed")` in exactly two cases:
the HTTP status is not 200, or the status is 200 but the parsed body's
`status` field evaluates to a value other than `"ok"` (the fallthrough to the
terminal failure).  In either case no client is constructed, since the result
is that error. -/
theorem authenticate_failure_iff (resp : Response) :
    authenticate resp =
        Except.error (PyExn.authenticationError "Authentication failed") ↔
      (resp.status ≠ 200 ∨
        ∃ v, Json.getKey resp.body "status" = Except.ok v ∧ v ≠ Json.str "ok") := by
  unfold authenticate
  by_cases h200 : resp.status = 200
  · rcases hk : Json.getKey resp.body "status" with e | v
    · have he := Json.getKey_error_shape _ _ _ hk
      subst he
      simp [hk, h200]
    · by_cases hb : v = Json.str "ok"
      · subst hb
        rcases hu : loginUserId resp.body with e | uid
        · have hne := loginUserId_not_auth resp.body "Authentication failed"
          rw [hu] at hne
          simp at hne
          simp [hk, h200, hu, hne, Json.beq]
        · rcases ht : loginAccessToken resp.body with e | tok
          · have hne := loginAccessToken_not_auth resp.body "Authentication failed"
            rw [ht] at hne
            simp at hne
            simp [hk, h200, hu, ht, hne, Json.beq]
          · simp [hk, h200, hu, ht, Json.beq]
      · have hbf : Json.beq v (Json.str "ok") = false := by
          rw [← Bool.not_eq_true, Json.beq_str_iff]
          exact hb
        simp [hk, h200, hbf, hb]
  · simp [h200]

/-- Witness for C2: a 401 response fails with the fixed authentication
error, and a 200 response whose body `status` is `"error"` falls through to
the same failure. -/
theorem authenticate_failure_iff_witness :
    authenticate { status := 401, body := Json.null } =
      Except.error (PyExn.authenticationError "Authentication failed") ∧
    authenticate { status := 200, body := Json.obj [("status", Json.str "error")] } =
      Except.error (PyExn.authenticationError "Authentication failed") := by
  constructor
  · exact (authenticate_failure_iff _).mpr (Or.inl (by simp))
  · exact (authenticate_failure_iff _).mpr
      (Or.inr ⟨Json.str "error", rfl, by simp⟩)

/-- With an empty cache, every `get_pairings` branch issues exactly one
network call. -/
theorem get_pairings_calls_of_none (api : AirPatrolAPI) (resp : Response)
    (hc : api.pairings_cache = none) :
    netCalls (get_pairings api resp) = 1 := by
  unfold get_pairings
  rw [hc]
  by_cases h1 : resp.status = 401 ∨ resp.status = 403
  · simp [h1, netCalls]
  · by_cases h2 : resp.status = 200
    · rcases hk : Json.getKey resp.body "status" with e | v
      · simp [h1, h2, hk, netCalls]
      · by_cases hb : Json.beq v (Json.str "ok") = true
        · simp [h1, h2, hk, hb, netCalls]
        · simp [h1, h2, hk, hb, netCalls]
    · simp [h1, h2, netCalls]

/-- A fetch from an empty cache succeeds only on the 200-with-`"ok"` branch,
which returns the body, caches it, and costs one call. -/
theorem get_pairings_ok_shape (api : AirPatrolAPI) (resp : Response) (d : Json)
    (hc : api.pairings_cache = none)
    (h : outcome (get_pairings api resp) = Except.ok d) :
    d = resp.body ∧
    get_pairings api resp =
      (Except.ok resp.body, { api with pairings_cache := some resp.body }, 1) := by
  unfold get_pairings at *
  rw [hc] at *
  by_cases h1 : resp.status = 401 ∨ resp.status = 403
  · simp [h1, outcome] at h
  · by_cases h2 : resp.status = 200
    · rcases hk : Json.getKey resp.body "status" with e | v
      · simp [h1, h2, hk, outcome] at h
      · by_cases hb : Json.beq v (Json.str "ok") = true
        · simp [h1, h2, hk, hb, outcome] at h
          simp [h1, h2, hk, hb, h]
        · simp [h1, h2, hk, hb, outcome] at h
    · simp [h1, h2, outcome] at h

/-- C3: `get_pairings` is a pure memoization: a non-null cache is returned
as-is with zero network calls; two consecutive invocations whose first
succeeds issue exactly one network call in total; clearing the cache between
them forces a second network call. -/
theorem get_pairings_memoization :
    (∀ api resp cached, api.pairings_cache = some cached →
        get_pairings api resp = (Except.ok cached, api, 0)) ∧
    (∀ api r1 r2 d, api.pairings_cache = none →
        outcome (get_pairings api r1) = Except.ok d →
        netCalls (get_pairings api r1) +
            netCalls (get_pairings (nextState (get_pairings api r1)) r2) = 1) ∧
    (∀ api r1 r2 d, api.pairings_cache = none →
        outcome (get_pairings api r1) = Except.ok d →
        netCalls (get_pairings
          (clear_pairings_cache (nextState (get_pairings api r1))) r2) = 1) := by
  refine ⟨?_, ?_, ?_⟩
  · intro api resp cached h
    unfold get_pairings
    rw [h]
  · intro api r1 r2 d hc h
    obtain ⟨-, hshape⟩ := get_pairings_ok_shape api r1 d hc h
    rw [hshape]
    have hhit : get_pairings { api with pairings_cache := some r1.body } r2 =
        (Except.ok r1.body, { api with pairings_cache := some r1.body }, 0) := by
      unfold get_pairings
      rfl
    simp [nextState, netCalls, hhit]
  · intro api r1 r2 d hc h
    obtain ⟨-, hshape⟩ := get_pairings_ok_shape api r1 d hc h
    rw [hshape]
    exact get_pairings_calls_of_none _ r2 rfl

/-- A freshly constructed client with no cache, used as a concrete test
fixture (mirrors the test suite's `api` fixture). -/
def apiEx : AirPatrolAPI :=
  { access_token := Json.str "test_access_token"
    user_id := Json.str "test_user_id"
    pairings_cache := none }

/-- The fixture client with a populated pairings cache. -/
def apiCachedEx : AirPatrolAPI :=
  { access_token := Json.str "test_access_token"
    user_id := Json.str "test_user_id"
    pairings_cache := some (Json.str "cached") }

/-- A minimal successful pairings response (status 200, body
`{"status": "ok"}`). -/
def okPairingsResp : Response :=
  { status := 200, body := Json.obj [("status", Json.str "ok")] }

/-- Witness for C3: a hit on a populated cache returns the cached document at
zero calls; a successful fetch plus a second call cost one call in total; and
clearing in between costs a second call. -/
theorem get_pairings_memoization_witness :
    get_pairings apiCachedEx { status := 500, body := Json.null } =
      (Except.ok (Json.str "cached"), apiCachedEx, 0) ∧
    netCalls (get_pairings apiEx okPairingsResp) +
        netCalls (get_pairings (nextState (get_pairings apiEx okPairingsResp))
          okPairingsResp) = 1 ∧
    netCalls (get_pairings
        (clear_pairings_cache (nextState (get_pairings apiEx okPairingsResp)))
        okPairingsResp) = 1 := by
  refine ⟨get_pairings_memoization.1 _ _ _ rfl, ?_, ?_⟩
  · exact get_pairings_memoization.2.1 apiEx okPairingsResp okPairingsResp
      (Json.obj [("status", Json.str "ok")]) rfl
      (by simp [apiEx, okPairingsResp, get_pairings, outcome, Json.getKey,
            lookupKey, Json.beq])
  · exact get_pairings_memoization.2.2 apiEx okPairingsResp okPairingsResp
      (Json.obj [("status", Json.str "ok")]) rfl
      (by simp [apiEx, okPairingsResp, get_pairings, outcome, Json.getKey,
            lookupKey, Json.beq])

/-- C4: for a pairings response fetched with an empty cache: 401/403 raise
`AirPatrolAuthenticationError("Failed to fetch pairings")`; 200 with a body
`status` other than `"ok"` raises `AirPatrolError("API returned error
status")`; 200 with `status == "ok"` caches the full body and returns it; any
other status raises `AirPatrolError("Failed to fetch pairings: <status>")`. -/
theorem get_pairings_fetch_contract (api : AirPatrolAPI) (resp : Response)
    (hc : api.pairings_cache = none) :
    ((resp.status = 401 ∨ resp.status = 403) →
        get_pairings api resp =
          (Except.error (PyExn.authenticationError "Failed to fetch pairings"),
            api, 1)) ∧
    (∀ v, resp.status = 200 →
        Json.getKey resp.body "status" = Except.ok v → v ≠ Json.str "ok" →
        get_pairings api resp =
          (Except.error (PyExn.apiError "API returned error status"), api, 1)) ∧
    (resp.status = 200 →
        Json.getKey resp.body "status" = Except.ok (Json.str "ok") →
        get_pairings api resp =
          (Except.ok resp.body, { api with pairings_cache := some resp.body }, 1)) ∧
    (resp.status ≠ 401 → resp.status ≠ 403 → resp.status ≠ 200 →
        get_pairings api resp =
          (Except.error (PyExn.apiError
            ("Failed to fetch pairings: " ++ toString resp.status)), api, 1)) := by
  refine ⟨?_, ?_, ?_, ?_⟩
  · intro hs
    unfold get_pairings
    rw [hc]
    simp [hs]
  · intro v h200 hk hne
    have hbf : Json.beq v (Json.str "ok") = false := by
      rw [← Bool.not_eq_true, Json.beq_str_iff]
      exact hne
    unfold get_pairings
    rw [hc]
    simp [h200, hk, hbf]
  · intro h200 hk
    unfold get_pairings
    rw [hc]
    simp [h200, hk, Json.beq]
  · intro h401 h403 h200
    unfold get_pairings
    rw [hc]
    simp [h401, h403, h200]

/-- Witness for C4: the four branches at concrete statuses 401, 200 with an
`"error"` body, 200 with an `"ok"` body, and 500. -/
theorem get_pairings_fetch_contract_witness :
    get_pairings apiEx { status := 401, body := Json.null } =
      (Except.error (PyExn.authenticationError "Failed to fetch pairings"),
        apiEx, 1) ∧
    get_pairings apiEx { status := 200, body := Json.obj [("status", Json.str "error")] } =
      (Except.error (PyExn.apiError "API returned error status"), apiEx, 1) ∧
    get_pairings apiEx okPairingsResp =
      (Except.ok (Json.obj [("status", Json.str "ok")]),
        { apiEx with pairings_cache := some (Json.obj [("status", Json.str "ok")]) },
        1) ∧
    get_pairings apiEx { status := 500, body := Json.null } =
      (Except.error (PyExn.apiError "Failed to fetch pairings: 500"), apiEx, 1) := by
  refine ⟨?_, ?_, ?_, ?_⟩
  · exact (get_pairings_fetch_contract apiEx _ rfl).1 (Or.inl rfl)
  · exact (get_pairings_fetch_contract apiEx _ rfl).2.1 (Json.str "error") rfl rfl
      (by simp)
  · exact (get_pairings_fetch_contract apiEx _ rfl).2.2.1 rfl rfl
  · exact (get_pairings_fetch_contract apiEx _ rfl).2.2.2 (by simp) (by simp) (by simp)

/-- C10: a failing `get_pairings` call leaves the client state, and so the
`pairings_cache` field, unchanged; the cache changes only on the
200-with-`"ok"` success path; and after a failure from a null cache a
subsequent call still issues a network call. -/
theorem get_pairings_failure_preserves_cache (api : AirPatrolAPI) (resp : Response) :
    (∀ e, outcome (get_pairings api resp) = Except.error e →
        nextState (get_pairings api resp) = api) ∧
    ((nextState (get_pairings api resp)).pairings_cache ≠ api.pairings_cache →
        api.pairings_cache = none ∧ resp.status = 200 ∧
        Json.getKey resp.body "status" = Except.ok (Json.str "ok") ∧
        outcome (get_pairings api resp) = Except.ok resp.body) ∧
    (∀ e r2, api.pairings_cache = none →
        outcome (get_pairings api resp) = Except.error e →
        netCalls (get_pairings (nextState (get_pairings api resp)) r2) = 1) := by
  have hmain : (∀ e, outcome (get_pairings api resp) = Except.error e →
      nextState (get_pairings api resp) = api) ∧
      ((nextState (get_pairings api resp)).pairings_cache ≠ api.pairings_cache →
        api.pairings_cache = none ∧ resp.status = 200 ∧
        Json.getKey resp.body "status" = Except.ok (Json.str "ok") ∧
        outcome (get_pairings api resp) = Except.ok resp.body) := by
    rcases hc : api.pairings_cache with - | cached
    · unfold get_pairings
      rw [hc]
      by_cases h1 : resp.status = 401 ∨ resp.status = 403
      · simp [h1, outcome, nextState, hc]
      · by_cases h2 : resp.status = 200
        · rcases hk : Json.getKey resp.body "status" with e | v
          · simp [h1, h2, hk, outcome, nextState, hc]
          · by_cases hb : Json.beq v (Json.str "ok") = true
            · have hv := (Json.beq_str_iff v "ok").mp hb
              subst hv
              simp [h1, h2, hk, hb, outcome, nextState, hc]
            · simp [h1, h2, hk, hb, outcome, nextState, hc]
        · simp [h1, h2, outcome, nextState, hc]
    · unfold get_pairings
      rw [hc]
      simp [outcome, nextState, hc]
  refine ⟨hmain.1, hmain.2, ?_⟩
  intro e r2 hc herr
  have hstate := hmain.1 e herr
  rw [hstate]
  exact get_pairings_calls_of_none api r2 hc

/-- Witness for C10: after the 500 failure of `test_get_data_failure` the
fixture client's state (and null cache) is unchanged, and a retry against a
success response still performs a fresh network fetch. -/
theorem get_pairings_failure_preserves_cache_witness :
    nextState (get_pairings apiEx { status := 500, body := Json.null }) = apiEx ∧
    netCalls (get_pairings
        (nextState (get_pairings apiEx { status := 500, body := Json.null }))
        okPairingsResp) = 1 := by
  have h := get_pairings_failure_preserves_cache apiEx
    { status := 500, body := Json.null }
  refine ⟨h.1 (PyExn.apiError "Failed to fetch pairings: 500") ?_, ?_⟩
  · simp only [apiEx, get_pairings, outcome]
    rfl
  · exact h.2.2 (PyExn.apiError "Failed to fetch pairings: 500") okPairingsResp rfl
      (by simp only [apiEx, get_pairings, outcome]; rfl)

/-- C9: `get_unique_id` returns the stored user id and raises a
`ValueError`-class error exactly when no user id is set; `get_access_token`
returns the stored token and never fails (it is a total function of the
state).  Both accessors are pure functions of the client state: no network
response is consumed and no new state is produced. -/
theorem identity_accessors (api : AirPatrolAPI) :
    (api.user_id = Json.null →
        get_unique_id api = Except.error (PyExn.valueError "Not authenticated")) ∧
    (api.user_id ≠ Json.null → get_unique_id api = Except.ok api.user_id) ∧
    ((∃ e, get_unique_id api = Except.error e) ↔ api.user_id = Json.null) ∧
    get_access_token api = api.access_token := by
  by_cases h : api.user_id = Json.null
  · have hb : Json.beq api.user_id Json.null = true := (Json.beq_null_iff _).mpr h
    refine ⟨fun _ => ?_, fun hn => absurd h hn, ?_, rfl⟩
    · simp [get_unique_id, hb]
    · simp [get_unique_id, hb, h, Json.beq]
  · have hb : Json.beq api.user_id Json.null = false := by
      rw [← Bool.not_eq_true, Json.beq_null_iff]
      exact h
    refine ⟨fun hn => absurd hn h, fun _ => ?_, ?_, rfl⟩
    · simp [get_unique_id, hb]
    · simp [get_unique_id, hb, h]

/-- Witness for C9: on the authenticated fixture the accessors return the
stored values, and on a client constructed without a user id `get_unique_id`
raises `ValueError("Not authenticated")`. -/
theorem identity_accessors_witness :
    get_unique_id apiEx = Except.ok (Json.str "test_user_id") ∧
    get_access_token apiEx = Json.str "test_access_token" ∧
    get_unique_id { access_token := Json.str "t", user_id := Json.null,
                    pairings_cache := none } =
      Except.error (PyExn.valueError "Not authenticated") :=
  ⟨(identity_accessors apiEx).2.1 (by simp [apiEx]),
   (identity_accessors apiEx).2.2.2,
   (identity_accessors _).1 rfl⟩

/-- C7: both climate response handlers raise
`AirPatrolAuthenticationError` exactly when the status is 401 or 403, return
the parsed body verbatim (with no envelope check) on 200, and raise
`AirPatrolError` with the status interpolated on every other status. -/
theorem climate_status_contract (resp : Response) :
    ((∃ m, get_unit_climate_data resp =
        Except.error (PyExn.authenticationError m)) ↔
      (resp.status = 401 ∨ resp.status = 403)) ∧
    ((∃ m, set_unit_climate_data resp =
        Except.error (PyExn.authenticationError m)) ↔
      (resp.status = 401 ∨ resp.status = 403)) ∧
    (resp.status = 200 →
      get_unit_climate_data resp = Except.ok resp.body ∧
      set_unit_climate_data resp = Except.ok resp.body) ∧
    (resp.status ≠ 200 → resp.status ≠ 401 → resp.status ≠ 403 →
      get_unit_climate_data resp =
        Except.error (PyExn.apiError
          ("Failed to fetch climate data: " ++ toString resp.status)) ∧
      set_unit_climate_data resp =
        Except.error (PyExn.apiError
          ("Failed to set climate data: " ++ toString resp.status))) := by
  by_cases h1 : resp.status = 401 ∨ resp.status = 403
  · have h200 : ¬ resp.status = 200 := by rcases h1 with h | h <;> rw [h] <;> simp
    refine ⟨?_, ?_, fun hs => absurd hs h200, fun _ hx hy => ?_⟩
    · simp [get_unit_climate_data, h1]
    · simp [set_unit_climate_data, h1]
    · rcases h1 with h | h
      · exact absurd h hx
      · exact absurd h hy
  · by_cases h2 : resp.status = 200
    · refine ⟨?_, ?_, fun _ => ?_, fun hs => absurd h2 hs⟩
      · simp [get_unit_climate_data, h1, h2]
      · simp [set_unit_climate_data, h1, h2]
      · exact ⟨by simp [get_unit_climate_data, h1, h2],
          by simp [set_unit_climate_data, h1, h2]⟩
    · refine ⟨?_, ?_, fun hs => absurd hs h2, fun _ _ _ => ?_⟩
      · simp [get_unit_climate_data, h1, h2]
      · simp [set_unit_climate_data, h1, h2]
      · exact ⟨by simp [get_unit_climate_data, h1, h2],
          by simp [set_unit_climate_data, h1, h2]⟩

/-- Witness for C7: concrete statuses 401 (authentication failure), 200
(verbatim body), and 400 (generic error with the status interpolated, the
test suite's `Bad Request` case). -/
theorem climate_status_contract_witness :
    ((∃ m, get_unit_climate_data { status := 401, body := Json.null } =
        Except.error (PyExn.authenticationError m)) ↔
      ((401 : Nat) = 401 ∨ (401 : Nat) = 403)) ∧
    get_unit_climate_data { status := 200, body := Json.str "doc" } =
      Except.ok (Json.str "doc") ∧
    set_unit_climate_data { status := 200, body := Json.str "doc" } =
      Except.ok (Json.str "doc") ∧
    get_unit_climate_data { status := 400, body := Json.null } =
      Except.error (PyExn.apiError "Failed to fetch climate data: 400") ∧
    set_unit_climate_data { status := 400, body := Json.null } =
      Except.error (PyExn.apiError "Failed to set climate data: 400") := by
  have h400 := (climate_status_contract { status := 400, body := Json.null }).2.2.2
    (by simp) (by simp) (by simp)
  have h200 := (climate_status_contract { status := 200, body := Json.str "doc" }).2.2.1
    rfl
  refine ⟨(climate_status_contract { status := 401, body := Json.null }).1,
    h200.1, h200.2, ?_, ?_⟩
  · rw [h400.1]
    rfl
  · rw [h400.2]
    rfl

/-- C8: `set_unit_climate_data` issues a POST to the command endpoint whose
headers carry `Authorization: Bearer <access_token>` and
`X-Pairing-Id: <unit_id>`, and whose JSON body is the caller's payload passed
through unmodified. -/
theorem set_unit_climate_request_contract (api : AirPatrolAPI)
    (t unit_id : String) (payload : Json)
    (ht : api.access_token = Json.str t) :
    (set_unit_climate_request api unit_id payload).method = "POST" ∧
    (set_unit_climate_request api unit_id payload).url =
      API_BASE_URL ++ API_COMMAND_ENDPOINT ∧
    lookupHeader (set_unit_climate_request api unit_id payload).headers
        "Authorization" = some ("Bearer " ++ t) ∧
    lookupHeader (set_unit_climate_request api unit_id payload).headers
        "X-Pairing-Id" = some unit_id ∧
    (set_unit_climate_request api unit_id payload).json_body = some payload := by
  refine ⟨rfl, rfl, ?_, ?_, rfl⟩
  · simp [set_unit_climate_request, commandHeaders, lookupHeader, ht, fstr]
  · simp [set_unit_climate_request, commandHeaders, lookupHeader]

/-- Witness for C8 at the test suite's inputs: token `test_access_token`,
unit `"00000"`, an opaque payload. -/
theorem set_unit_climate_request_contract_witness :
    lookupHeader (set_unit_climate_request apiEx "00000"
        (Json.obj [("foo", Json.str "bar")])).headers "Authorization" =
      some "Bearer test_access_token" ∧
    lookupHeader (set_unit_climate_request apiEx "00000"
        (Json.obj [("foo", Json.str "bar")])).headers "X-Pairing-Id" =
      some "00000" ∧
    (set_unit_climate_request apiEx "00000"
        (Json.obj [("foo", Json.str "bar")])).json_body =
      some (Json.obj [("foo", Json.str "bar")]) := by
  have h := set_unit_climate_request_contract apiEx "test_access_token" "00000"
    (Json.obj [("foo", Json.str "bar")]) rfl
  exact ⟨h.2.2.1, h.2.2.2.1, h.2.2.2.2⟩

/-- The inner first-match scan agrees with `List.find?` on dict-shaped
pairings. -/
theorem findPairing_spec (pid : Json) (ps : List Json)
    (hobj : ∀ p ∈ ps, isObj p = true) :
    findPairing pid ps =
      Except.ok (ps.find? (fun p => Json.beq (objGet p "id") pid)) := by
  induction ps with
  | nil => rfl
  | cons p rest ih =>
    have hp : isObj p = true := hobj p (by simp)
    have hrest : ∀ q ∈ rest, isObj q = true := fun q hq => hobj q (by simp [hq])
    unfold findPairing
    rw [Json.getKey_of_isObj p "id" hp]
    by_cases hb : Json.beq (objGet p "id") pid = true
    · simp [hb, List.find?_cons_of_pos]
    · rw [Bool.not_eq_true] at hb
      simp [hb, List.find?_cons_of_neg, ih hrest]

/-- The outer loop agrees with the filter-then-resolve description on
dict-shaped documents. -/
theorem devicesLoop_spec (uid : Json) (data : Json) (pus ps : List Json)
    (hp : pairingsOf data = Except.ok ps)
    (hpu : ∀ pu ∈ pus, isObj pu = true)
    (hps : ∀ p ∈ ps, isObj p = true) :
    devicesLoop uid data pus = Except.ok (resolveOwnedSpec uid pus ps) := by
  induction pus with
  | nil => rfl
  | cons pu rest ih =>
    have h1 : isObj pu = true := hpu pu (by simp)
    have hrest : ∀ q ∈ rest, isObj q = true := fun q hq => hpu q (by simp [hq])
    unfold devicesLoop
    rw [Json.getKey_of_isObj pu "userId" h1]
    by_cases hb : Json.beq (objGet pu "userId") uid = true
    · simp only [hb, if_true]
      simp only [Json.getKey_of_isObj pu "pairingId" h1, hp,
        findPairing_spec (objGet pu "pairingId") ps hps, ih hrest]
      unfold resolveOwnedSpec
      rw [List.filter_cons_of_pos (p := fun q => Json.beq (objGet q "userId") uid) hb,
        List.filterMap_cons]
      cases hfind : ps.find? (fun p => Json.beq (objGet p "id") (objGet pu "pairingId")) with
      | none => simp [hfind]
      | some p => simp [hfind]
    · rw [Bool.not_eq_true] at hb
      simp only [hb, Bool.false_eq_true, if_false, ih hrest]
      unfold resolveOwnedSpec
      rw [List.filter_cons_of_neg (p := fun q => Json.beq (objGet q "userId") uid)
        (by simp [hb])]

/-- C5: on a dict-shaped discovery document, `get_devices` returns exactly
the pairings resolved from the `entities.pairingUser.list` entries whose
`userId` equals the client's user id, each resolved against
`entities.pairings.list` by a first-match linear scan; when no entry matches
the user, the result is the empty list with no error; and through the method
itself (document served from the cache) the same list is returned with no
network call. -/
theorem get_devices_resolution (uid : Json) (data : Json) (pus ps : List Json)
    (hpus : pairingUsersOf data = Except.ok pus)
    (hp : pairingsOf data = Except.ok ps)
    (hpu : ∀ pu ∈ pus, isObj pu = true)
    (hps : ∀ p ∈ ps, isObj p = true) :
    get_devices_from uid data = Except.ok (resolveOwnedSpec uid pus ps) ∧
    ((∀ pu ∈ pus, Json.beq (objGet pu "userId") uid = false) →
        get_devices_from uid data = Except.ok []) ∧
    (∀ api resp, api.user_id = uid → api.pairings_cache = some data →
        get_devices api resp = (Except.ok (resolveOwnedSpec uid pus ps), api, 0)) := by
  have hmain : get_devices_from uid data = Except.ok (resolveOwnedSpec uid pus ps) := by
    unfold get_devices_from
    rw [hpus]
    exact devicesLoop_spec uid data pus ps hp hpu hps
  refine ⟨hmain, fun hnone => ?_, fun api resp huid hcache => ?_⟩
  · rw [hmain]
    have hfilter : pus.filter (fun pu => Json.beq (objGet pu "userId") uid) = [] := by
      rw [List.filter_eq_nil_iff]
      intro a ha
      simp [hnone a ha]
    simp [resolveOwnedSpec, hfilter]
  · have hhit : get_pairings api resp = (Except.ok data, api, 0) := by
      unfold get_pairings
      rw [hcache]
    unfold get_devices
    rw [hhit]
    simp only [huid, hmain]

/-- The discovery document of the repository's `test_get_devices_success`. -/
def pairingsDocEx : Json :=
  Json.obj
    [("status", Json.str "ok"),
     ("entities", Json.obj
        [("pairingUser", Json.obj
           [("list", Json.arr
              [Json.obj [("userId", Json.str "test_user_id"),
                         ("pairingId", Json.str "00000"),
                         ("id", Json.str "000011")]])]),
         ("pairings", Json.obj
           [("list", Json.arr
              [Json.obj [("id", Json.str "00000"),
                         ("name", Json.str "Test Device"),
                         ("type", Json.str "apw")]])])]),
     ("misc", Json.obj []), ("errors", Json.arr [])]

/-- Witness for C5 at the test suite's document: the fixture user owns the
single pairing and receives it; a different user receives the empty list. -/
theorem get_devices_resolution_witness :
    get_devices_from (Json.str "test_user_id") pairingsDocEx =
      Except.ok [Json.obj [("id", Json.str "00000"),
                           ("name", Json.str "Test Device"),
                           ("type", Json.str "apw")]] ∧
    get_devices_from (Json.str "other_user_id") pairingsDocEx = Except.ok [] := by
  constructor
  · have h := (get_devices_resolution (Json.str "test_user_id") pairingsDocEx _ _
      rfl rfl (by intro pu hpu; simp [pairingsDocEx] at hpu; simp [hpu, isObj])
      (by intro p hp; simp [pairingsDocEx] at hp; simp [hp, isObj])).1
    rw [h]
    simp [resolveOwnedSpec, pairingsDocEx, objGet, objGetD, lookupKey, Json.beq,
      List.find?]
  · exact (get_devices_resolution (Json.str "other_user_id") pairingsDocEx _ _
      rfl rfl (by intro pu hpu; simp [pairingsDocEx] at hpu; simp [hpu, isObj])
      (by intro p hp; simp [pairingsDocEx] at hp; simp [hp, isObj])).2.1
      (by intro pu hpu; simp [pairingsDocEx] at hpu;
          simp [hpu, objGet, objGetD, lookupKey, Json.beq])

/-- On dict-shaped devices whose `type` renders as a string and with climate
reads answered 200, the aggregation loop produces exactly the spec's
snapshots. -/
theorem dataLoop_spec (climate : String → Response) (devices : List Json)
    (hobj : ∀ d ∈ devices, isObj d = true)
    (hty : ∀ d ∈ devices, (typeStr d).isSome = true)
    (hcl : ∀ s, (climate s).status = 200) :
    dataLoop climate devices =
      Except.ok (unitsSpec (fun s => (climate s).body) devices) := by
  induction devices with
  | nil => rfl
  | cons d rest ih =>
    have h1 : isObj d = true := hobj d (by simp)
    have h2 := hty d (by simp)
    have hrest1 : ∀ q ∈ rest, isObj q = true := fun q hq => hobj q (by simp [hq])
    have hrest2 : ∀ q ∈ rest, (typeStr q).isSome = true :=
      fun q hq => hty q (by simp [hq])
    unfold dataLoop
    rw [Json.getKey_of_isObj d "id" h1]
    cases hid : objGet d "id"
    case str s =>
      have hc200 : get_unit_climate_data (climate s) = Except.ok (climate s).body := by
        unfold get_unit_climate_data
        have h200 := hcl s
        rw [h200]
        simp
      obtain ⟨t, ht⟩ := Option.isSome_iff_exists.mp h2
      have htv : objGetD d "type" (Json.str "Unknown") = Json.str t := by
        unfold typeStr at ht
        cases hv : objGetD d "type" (Json.str "Unknown") <;> rw [hv] at ht <;>
          simp_all
      have hup : pyUpper (objGetD d "type" (Json.str "Unknown")) =
          Except.ok t.toUpper := by
        rw [htv]
        rfl
      simp only [hid, hc200,
        Json.getKeyD_of_isObj d "name" (Json.str ("AirPatrol Device " ++ s)) h1,
        Json.getKeyD_of_isObj d "type" (Json.str "Unknown") h1, hup,
        Json.getKey_of_isObj d "hwid" h1, Json.getKey_of_isObj d "type" h1,
        Json.getKey_of_isObj d "appId" h1, ih hrest1 hrest2]
      simp [unitsSpec, List.filterMap_cons, snapshotSpec, hid, ht]
    all_goals
      simp only [hid]
      rw [ih hrest1 hrest2]
      simp [unitsSpec, List.filterMap_cons, snapshotSpec, hid]

/-- C6: `get_data` (with `get_units` its alias) iterates the resolved devices
in order, silently skips every device whose `id` is not a string, and for the
rest returns a snapshot whose `unit_id` is the device id, whose `model` is
`"AirPatrol "` followed by the upper-cased `type` (defaulting to `"Unknown"`
before upper-casing), whose `name` defaults to `"AirPatrol Device " ++
unit_id`, and whose `manufacturer` is the literal `"AirPatrol"`. -/
theorem get_data_snapshots (climate : String → Response) (devices : List Json)
    (hobj : ∀ d ∈ devices, isObj d = true)
    (hty : ∀ d ∈ devices, (typeStr d).isSome = true)
    (hcl : ∀ s, (climate s).status = 200) :
    dataLoop climate devices =
      Except.ok (unitsSpec (fun s => (climate s).body) devices) ∧
    (∀ api resp, get_units api resp climate = get_data api resp climate) :=
  ⟨dataLoop_spec climate devices hobj hty hcl, fun _ _ => rfl⟩

/-- The pairing record resolved in the repository's `test_get_data_success`. -/
def deviceEx : Json :=
  Json.obj [("id", Json.str "00000"), ("name", Json.str "Test Device"),
            ("type", Json.str "apw")]

/-- The climate response of `test_get_data_success`, abbreviated to the field
the spec's example checks. -/
def climateRespEx : Response :=
  { status := 200, body := Json.obj [("RoomTemp", Json.str "27.517")] }

/-- Witness for C6 at the test suite's device: one snapshot with
`unit_id == "00000"`, `name == "Test Device"`,
`model == "AirPatrol " ++ "apw".toUpper`, manufacturer `"AirPatrol"`. -/
theorem get_data_snapshots_witness :
    dataLoop (fun _ => climateRespEx) [deviceEx] =
      Except.ok [Json.obj
        [("unit_id", Json.str "00000"),
         ("name", Json.str "Test Device"),
         ("model", Json.str ("AirPatrol " ++ "apw".toUpper)),
         ("manufacturer", Json.str "AirPatrol"),
         ("hwid", Json.null),
         ("type", Json.str "apw"),
         ("app_id", Json.null),
         ("climate", Json.obj [("RoomTemp", Json.str "27.517")])]] := by
  have h := (get_data_snapshots (fun _ => climateRespEx) [deviceEx]
    (by intro d hd; simp at hd; subst hd; rfl)
    (by intro d hd; simp at hd; subst hd; rfl)
    (fun _ => rfl)).1
  rw [h]
  rfl

end AirPatrol
